import Mathlib

/-!
Shallow embedding of the TrailSafe Recall gear-inventory core: the gear
record model (types.ts), the inventory store handlers and the enrichment
orchestration of App.tsx (`addGear`, `updateGear`, `removeGear`,
`handleGlobalCheck`, `highDangerItems`), the Sidebar `reminders` view, and
the Gemini service clients (`checkGearSafety`, `getInspectionDetails`,
`analyzeGearCondition`, `assessImmediateSafety`, `analyzeTripLoadout`).

Network calls are modelled by an `Except Unit` argument standing for the
outcome of the underlying request (`.ok` carries the parsed response,
`.error` any thrown exception); wall-clock values (`new Date()`,
`Date.now()`) are explicit parameters. JavaScript objects are modelled as
closed records extended with the extra runtime property the enrichment
spread creates (`weakPoints`), since a JS object spread happily stores a
property that is absent from the declared TypeScript interface.
-/

namespace TrailSafe

/-- `Region` from types.ts: US, EU, AU, Global. -/
inductive Region
  | us
  | eu
  | au
  | global
deriving DecidableEq

/-- `GearCategory` from types.ts. -/
inductive GearCategory
  | tent
  | stove
  | pack
  | headlamp
  | harness
  | rope
  | plb
  | boots
  | helmet
  | carabiner
  | other
deriving DecidableEq

/-- `RecallStatus` from types.ts: unknown, safe, warning, recalled. -/
inductive RecallStatus
  | unknown
  | safe
  | warning
  | recalled
deriving DecidableEq

/-- `HazardType` from types.ts (the string literal union, `noHazard` standing
for the literal "None"). -/
inductive HazardType
  | fireBurn
  | fallFailure
  | gasLeak
  | electrical
  | waterDrowning
  | childSafety
  | laceration
  | structural
  | noHazard
deriving DecidableEq

/-- An entry of `RecallResult.sources`: `{ title: string; uri: string }`. -/
structure SourceRef where
  title : String
  uri : String
deriving DecidableEq

/-- `InspectionTask` from types.ts. -/
structure InspectionTask where
  id : String
  task : String
  isCompleted : Bool
deriving DecidableEq

/-- `RecallResult` from types.ts. -/
structure RecallResult where
  status : RecallStatus
  summary : String
  hazardReason : String
  hazardType : HazardType
  affectedRegion : String
  actionRequired : List String
  sources : List SourceRef
  lastChecked : String
deriving DecidableEq

/-- `GearItem` from types.ts. Optional TypeScript fields become `Option`s
(`none` = absent/undefined). The final field `weakPoints` is NOT part of the
TypeScript interface: it is the extra runtime property that the enrichment
spread `{ ...item, weakPoints: inspectionResult.weakPoints, ... }` in
App.tsx/GearCard.tsx stores on the object, kept here so the embedding can
talk about what that spread actually writes. -/
structure GearItem where
  id : String
  name : String
  brand : String
  model : String
  category : GearCategory
  purchaseDate : String
  region : Region
  notes : Option String := none
  serialNumber : Option String := none
  status : RecallStatus
  recallInfo : Option RecallResult := none
  expiryYear : Option Nat := none
  inspectionTasks : Option (List InspectionTask) := none
  inspectionDue : Option Bool := none
  conditionScore : Option Nat := none
  conditionLabel : Option String := none
  knownWeakPoints : Option (List String) := none
  inLoadout : Option Bool := none
  weakPoints : Option (List String) := none
deriving DecidableEq

/-- `LoadoutAnalysis` from types.ts. -/
structure LoadoutAnalysis where
  summary : String
  weakestCategories : List String
  redFlagItems : List String
  suggestions : List String
deriving DecidableEq

/-! ## Inventory store handlers (App.tsx) -/

/-- `addGear` in App.tsx: `setInventory([item, ...inventory])`. -/
def addGear (item : GearItem) (inventory : List GearItem) : List GearItem :=
  item :: inventory

/-- `updateGear` in App.tsx:
`inventory.map(item => item.id === updatedItem.id ? updatedItem : item)`. -/
def updateGear (updatedItem : GearItem) (inventory : List GearItem) : List GearItem :=
  inventory.map fun item => if item.id = updatedItem.id then updatedItem else item

/-- `removeGear` in App.tsx: `inventory.filter(item => item.id !== id)`. -/
def removeGear (id : String) (inventory : List GearItem) : List GearItem :=
  inventory.filter fun item => decide (item.id ≠ id)

/-! ## Gemini service clients (services/geminiService.ts)

Each client wraps its whole body in try/catch and resolves with a fallback
value in the catch branch, so it is a total function of the attempt
outcome. -/

/-- The JSON object parsed in step 2 of `checkGearSafety` (status, summary,
hazardReason, hazardType, affectedRegion, actionRequired); sources and
lastChecked are added by the client itself. -/
structure ParsedRecall where
  status : RecallStatus
  summary : String
  hazardReason : String
  hazardType : HazardType
  affectedRegion : String
  actionRequired : List String
deriving DecidableEq

/-- `checkGearSafety` in geminiService.ts. `attempt` is the outcome of the
two-step search/analysis pipeline (parsed analysis JSON plus grounded
sources); `now` is `new Date().toISOString()`. The catch branch returns the
fixed degraded RecallResult with status unknown and empty sources. -/
def checkGearSafety (attempt : Except Unit (ParsedRecall × List SourceRef))
    (now : String) : RecallResult :=
  match attempt with
  | Except.ok (parsed, sources) =>
    { status := parsed.status
      summary := parsed.summary
      hazardReason := parsed.hazardReason
      hazardType := parsed.hazardType
      affectedRegion := parsed.affectedRegion
      actionRequired := parsed.actionRequired
      sources := sources
      lastChecked := now }
  | Except.error _ =>
    { status := RecallStatus.unknown
      summary := "Could not verify safety status due to network error."
      hazardReason := "Unknown"
      hazardType := HazardType.noHazard
      affectedRegion := "Unknown"
      actionRequired := ["Check manufacturer website manually"]
      sources := []
      lastChecked := now }

/-- The value `getInspectionDetails` resolves with. -/
structure InspectionDetails where
  expiryYear : Nat
  inspectionTasks : List InspectionTask
  weakPoints : List String
deriving DecidableEq

/-- The JSON object `getInspectionDetails` parses (all fields may be
missing from the model's response). -/
structure ParsedInspection where
  expiryYear : Option Nat
  tasks : Option (List String)
  weakPoints : Option (List String)
deriving DecidableEq

/-- JavaScript `x || d` on an optional number: falls back on `undefined`
and on the falsy value `0`. -/
def orDefaultNat (x : Option Nat) (d : Nat) : Nat :=
  match x with
  | some y => if y = 0 then d else y
  | none => d

/-- `getInspectionDetails` in geminiService.ts. `currentYear` is
`new Date().getFullYear()` and `taskIdBase` the `task-${Date.now()}-` id
stem. The catch branch returns expiry currentYear + 5, one generic task and
one generic weak point. -/
def getInspectionDetails (attempt : Except Unit ParsedInspection)
    (currentYear : Nat) (taskIdBase : String) : InspectionDetails :=
  match attempt with
  | Except.ok data =>
    { expiryYear := orDefaultNat data.expiryYear (currentYear + 5)
      inspectionTasks := (data.tasks.getD []).enum.map fun p =>
        { id := taskIdBase ++ toString p.1, task := p.2, isCompleted := false }
      weakPoints := data.weakPoints.getD [] }
  | Except.error _ =>
    { expiryYear := currentYear + 5
      inspectionTasks := [{ id := "1", task := "Visually inspect for damage", isCompleted := false }]
      weakPoints := ["Check general condition"] }

/-- The value `analyzeGearCondition` resolves with. -/
structure ConditionResult where
  score : Nat
  label : String
deriving DecidableEq

/-- `analyzeGearCondition` in geminiService.ts: returns the parsed JSON on
success, and `{ score: 50, label: "Needs check" }` from the catch branch. -/
def analyzeGearCondition (attempt : Except Unit ConditionResult) : ConditionResult :=
  match attempt with
  | Except.ok r => r
  | Except.error _ => { score := 50, label := "Needs check" }

/-- `assessImmediateSafety` in geminiService.ts: `response.text.trim()` on
success, the fixed fallback sentence from the catch branch. -/
def assessImmediateSafety (attempt : Except Unit String) : String :=
  match attempt with
  | Except.ok text => text.trim
  | Except.error _ => "Could not assess. Please inspect manually."

/-- `analyzeTripLoadout` in geminiService.ts: parsed JSON on success; the
catch branch returns the fixed degraded analysis. -/
def analyzeTripLoadout (attempt : Except Unit LoadoutAnalysis) : LoadoutAnalysis :=
  match attempt with
  | Except.ok r => r
  | Except.error _ =>
    { summary := "Could not analyze loadout."
      weakestCategories := []
      redFlagItems := []
      suggestions := ["Check all gear manually before departure."] }

/-! ## Enrichment orchestration (App.tsx `handleGlobalCheck`,
GearCard.tsx `handleCheckSafety`) -/

/-- The merged record built when all three awaited results are available:
`{ ...item, status, recallInfo, expiryYear, inspectionTasks, weakPoints,
conditionScore, conditionLabel, inspectionDue: true }`. Note the spread
writes the runtime property `weakPoints`, not the declared GearItem field
`knownWeakPoints`. -/
def mergeEnrichment (item : GearItem) (recallResult : RecallResult)
    (inspectionResult : InspectionDetails) (conditionResult : ConditionResult) : GearItem :=
  { item with
    status := recallResult.status
    recallInfo := some recallResult
    expiryYear := some inspectionResult.expiryYear
    inspectionTasks := some inspectionResult.inspectionTasks
    weakPoints := some inspectionResult.weakPoints
    conditionScore := some conditionResult.score
    conditionLabel := some conditionResult.label
    inspectionDue := some true }

/-- The per-item enrichment body shared by `handleGlobalCheck` and
`handleCheckSafety`: `Promise.all` of the three calls inside try/catch.
Each `Except` argument is the settled state of one sub-call; the join
succeeds only if all three resolve, and any rejection lands in the catch
branch, which yields the item unchanged. -/
def enrichOne (item : GearItem) (recallCall : Except Unit RecallResult)
    (inspectionCall : Except Unit InspectionDetails)
    (conditionCall : Except Unit ConditionResult) : GearItem :=
  match recallCall, inspectionCall, conditionCall with
  | Except.ok r, Except.ok insp, Except.ok cond => mergeEnrichment item r insp cond
  | _, _, _ => item

/-- The settled outcomes of one item's three concurrent sub-calls. -/
abbrev EnrichOutcome :=
  Except Unit RecallResult × Except Unit InspectionDetails × Except Unit ConditionResult

/-- `enrichOne` applied to a bundle of three settled outcomes. -/
def enrichOneWith (item : GearItem) (o : EnrichOutcome) : GearItem :=
  enrichOne item o.1 o.2.1 o.2.2

/-- `handleGlobalCheck` in App.tsx: filter the inventory to status
"unknown", enrich each such item (`oracle` gives each item's settled
sub-call outcomes), await all, then merge back by id:
`prev.map(item => updatedItems.find(u => u.id === item.id) || item)`. -/
def enrichAll (inventory : List GearItem) (oracle : GearItem → EnrichOutcome) :
    List GearItem :=
  let updatedItems :=
    (inventory.filter fun item => decide (item.status = RecallStatus.unknown)).map
      fun item => enrichOneWith item (oracle item)
  inventory.map fun item =>
    match updatedItems.find? (fun u => decide (u.id = item.id)) with
    | some updated => updated
    | none => item

/-! ## Derived views -/

/-- The `highDangerItems` filter predicate in App.tsx:
`item.status === 'recalled' || item.status === 'warning' ||
(item.conditionScore !== undefined && item.conditionScore < 50)`. -/
def isHighDanger (item : GearItem) : Bool :=
  decide (item.status = RecallStatus.recalled) ||
  decide (item.status = RecallStatus.warning) ||
  (match item.conditionScore with
   | some s => decide (s < 50)
   | none => false)

/-- `highDangerItems` in App.tsx. -/
def highDangerItems (inventory : List GearItem) : List GearItem :=
  inventory.filter isHighDanger

/-- The `reminders` filter predicate in Sidebar.tsx:
`isExpired = item.expiryYear && item.expiryYear <= new Date().getFullYear()`
(JavaScript truthiness: undefined and 0 are both falsy) and
`needsInspection = item.conditionScore !== undefined && item.conditionScore < 60`.
`currentYear` stands for `new Date().getFullYear()`. -/
def isReminder (currentYear : Nat) (item : GearItem) : Bool :=
  (match item.expiryYear with
   | some y => decide (y ≠ 0) && decide (y ≤ currentYear)
   | none => false) ||
  (match item.conditionScore with
   | some s => decide (s < 60)
   | none => false)

/-- `reminders` in Sidebar.tsx. -/
def reminders (inventory : List GearItem) (currentYear : Nat) : List GearItem :=
  inventory.filter (isReminder currentYear)

/-! ## Concrete records used by witnesses and counterexamples
(the two seed items of `INITIAL_GEAR` in App.tsx, plus small variants) -/

/-- Seed item 1 of `INITIAL_GEAR`: the Petzl Grigri 2. -/
def itemGrigri : GearItem :=
  { id := "1", name := "Petzl Grigri 2", brand := "Petzl", model := "Grigri 2",
    category := GearCategory.other, purchaseDate := "2011", region := Region.us,
    notes := some "Used heavily", status := RecallStatus.unknown }

/-- Seed item 2 of `INITIAL_GEAR`: the MSR Reactor stove. -/
def itemReactor : GearItem :=
  { id := "2", name := "MSR Reactor", brand := "MSR", model := "Reactor Stove",
    category := GearCategory.stove, purchaseDate := "2017", region := Region.us,
    status := RecallStatus.unknown }

/-- A second item carrying the already-used id "1" (what the add form would
produce if `crypto.randomUUID()` ever repeated an id). -/
def dupGrigri : GearItem :=
  { itemGrigri with name := "Petzl Grigri +", model := "Grigri +", notes := none }

/-- A fresh item whose id "9" occurs nowhere in the seed inventory. -/
def itemFresh : GearItem :=
  { id := "9", name := "BD ATC", brand := "Black Diamond", model := "ATC",
    category := GearCategory.other, purchaseDate := "2020", region := Region.us,
    status := RecallStatus.unknown }

/-- A successful recall check resolving to status "safe". -/
def recallSafeSample : RecallResult :=
  { status := RecallStatus.safe, summary := "No recall found.", hazardReason := "None",
    hazardType := HazardType.noHazard, affectedRegion := "Global", actionRequired := [],
    sources := [], lastChecked := "2026-10-11T00:00:00.000Z" }

/-- A successful inspection-details response. -/
def inspectionSample : InspectionDetails :=
  { expiryYear := 2031,
    inspectionTasks := [{ id := "task-0-0", task := "Check cam wear", isCompleted := false }],
    weakPoints := ["Check cam spring tension"] }

/-- A successful condition-analysis response. -/
def conditionSample : ConditionResult :=
  { score := 72, label := "Needs inspection soon" }

/-- A safe-status item with condition score 40 (claim C5's first boundary
example). -/
def itemSafe40 : GearItem :=
  { itemReactor with id := "3", status := RecallStatus.safe, conditionScore := some 40 }

/-- A recalled item with condition score 90 (claim C5's second boundary
example). -/
def itemRecalled90 : GearItem :=
  { itemReactor with id := "4", status := RecallStatus.recalled, conditionScore := some 90 }

/-- An item whose expiry year is the defined but JavaScript-falsy value 0. -/
def itemYearZero : GearItem :=
  { itemReactor with id := "5", expiryYear := some 0 }

/-- An item expired in 2020 whose condition score is exactly 60. -/
def itemExpired60 : GearItem :=
  { itemReactor with id := "6", expiryYear := some 2020, conditionScore := some 60 }

/-- The Reactor after a check resolved it safe. -/
def itemSafeReactor : GearItem :=
  { itemReactor with status := RecallStatus.safe }

/-- An oracle on which every sub-call of every item rejects. -/
def oracleFailAll : GearItem → EnrichOutcome :=
  fun _ => (Except.error (), Except.error (), Except.error ())

/-- The Grigri after a fully successful per-item enrichment. -/
def enrichedGrigri : GearItem :=
  enrichOne itemGrigri (Except.ok recallSafeSample) (Except.ok inspectionSample)
    (Except.ok conditionSample)

/-! ## Theorems -/

/-- Claim C1: if any of `enrichOne`'s three concurrent sub-calls (recall
check, inspection details, condition analysis) settles as a rejection, the
catch branch returns a value equal to its input — no field is mutated, so
in particular an input status of "unknown" remains "unknown". -/
theorem enrichOne_failure_identity (item : GearItem)
    (recallCall : Except Unit RecallResult)
    (inspectionCall : Except Unit InspectionDetails)
    (conditionCall : Except Unit ConditionResult)
    (h : recallCall = Except.error () ∨ inspectionCall = Except.error () ∨
      conditionCall = Except.error ()) :
    enrichOne item recallCall inspectionCall conditionCall = item := by
  cases recallCall with
  | error e => rfl
  | ok r =>
    cases inspectionCall with
    | error e => rfl
    | ok insp =>
      cases conditionCall with
      | error e => rfl
      | ok cond => rcases h with h | h | h <;> exact absurd h (by simp)

/-- Witness for C1: a failed recall check on the seed Grigri with the other
two calls succeeding leaves the item untouched. -/
theorem enrichOne_failure_identity_witness :
    enrichOne itemGrigri (Except.error ()) (Except.ok inspectionSample)
      (Except.ok conditionSample) = itemGrigri :=
  enrichOne_failure_identity itemGrigri _ _ _ (Or.inl rfl)

/-- Claim C2 (evaluated at a failing input): with all three sub-calls
successful, the merged record does set status, recall info, expiry year,
inspection tasks, condition score and label and inspection-due = true, and
preserves identity and descriptive fields — but the weak-point list is
stored under the runtime property `weakPoints` (absent from the GearItem
interface), while the declared field `knownWeakPoints`, the one the claim
refers to and the one GearCard and `assessImmediateSafety` read, is left
untouched (still undefined). -/
theorem enrichOne_misses_knownWeakPoints :
    enrichedGrigri.knownWeakPoints = none ∧
    enrichedGrigri.weakPoints = some inspectionSample.weakPoints ∧
    enrichedGrigri.id = itemGrigri.id ∧
    enrichedGrigri.name = itemGrigri.name ∧
    enrichedGrigri.brand = itemGrigri.brand ∧
    enrichedGrigri.model = itemGrigri.model ∧
    enrichedGrigri.status = recallSafeSample.status ∧
    enrichedGrigri.recallInfo = some recallSafeSample ∧
    enrichedGrigri.expiryYear = some inspectionSample.expiryYear ∧
    enrichedGrigri.inspectionTasks = some inspectionSample.inspectionTasks ∧
    enrichedGrigri.conditionScore = some conditionSample.score ∧
    enrichedGrigri.conditionLabel = some conditionSample.label ∧
    enrichedGrigri.inspectionDue = some true :=
  ⟨rfl, rfl, rfl, rfl, rfl, rfl, rfl, rfl, rfl, rfl, rfl, rfl, rfl⟩

/-- Claim C4 counterexample: `addGear` performs no id-collision check.
Adding a second item with the already-present id "1" is not rejected: the
item is prepended and the store then holds two entries with id "1". -/
theorem addGear_collision_not_rejected :
    addGear dupGrigri [itemGrigri] = [dupGrigri, itemGrigri] ∧
    (addGear dupGrigri [itemGrigri]).map GearItem.id = ["1", "1"] :=
  ⟨rfl, rfl⟩

/-- Claim C4 (amended): `addGear` unconditionally prepends the new item to
the front of the inventory, preserving the relative order of all existing
items; there is no id-collision check (collisions are only avoided because
the add form generates fresh UUIDs). -/
theorem addGear_prepends (item : GearItem) (inventory : List GearItem) :
    addGear item inventory = item :: inventory := rfl

/-- Claim C7 counterexample: the quick-verdict fallback is the string
"Could not assess. Please inspect manually.", not the string
"could not assess, inspect manually" quoted by the claim. -/
theorem quickVerdict_fallback_string_differs :
    assessImmediateSafety (Except.error ()) = "Could not assess. Please inspect manually." ∧
    assessImmediateSafety (Except.error ()) ≠ "could not assess, inspect manually" :=
  ⟨rfl, by decide⟩

/-- Claim C7 (amended): on failure of the external call,
`assessImmediateSafety` returns the fixed fallback string
"Could not assess. Please inspect manually." rather than propagating an
error, and `analyzeTripLoadout` returns the fixed degraded analysis with
empty weakest-category and red-flag lists and exactly one generic
suggestion rather than throwing. -/
theorem degraded_fallbacks (e : Unit) :
    assessImmediateSafety (Except.error e) = "Could not assess. Please inspect manually." ∧
    analyzeTripLoadout (Except.error e) =
      { summary := "Could not analyze loadout.", weakestCategories := [],
        redFlagItems := [], suggestions := ["Check all gear manually before departure."] } :=
  ⟨rfl, rfl⟩

/-- Claim C8: `updateGear` preserves length; with an id not present in the
store it is a no-op (the store is unchanged and, being a total function, it
throws nothing); and pointwise, every position holding an entry whose id
differs from the update's id is preserved, while positions holding the
matching id receive the replacement. -/
theorem updateGear_spec (u : GearItem) (inventory : List GearItem) :
    (updateGear u inventory).length = inventory.length ∧
    (u.id ∉ inventory.map GearItem.id → updateGear u inventory = inventory) ∧
    (∀ (i : Nat) (item : GearItem), inventory[i]? = some item →
      (updateGear u inventory)[i]? = some (if item.id = u.id then u else item)) := by
  refine ⟨List.length_map _ _, ?_, ?_⟩
  · intro h
    have hpt : ∀ item ∈ inventory, (if item.id = u.id then u else item) = item := by
      intro item hmem
      rw [if_neg]
      intro heq
      exact h (heq ▸ List.mem_map_of_mem GearItem.id hmem)
    calc updateGear u inventory
        = inventory.map (fun item => item) := List.map_congr_left hpt
      _ = inventory := List.map_id' inventory
  · intro i item hget
    rw [updateGear, List.getElem?_map, hget]
    rfl

/-- Witness for C8: updating with the fresh id "9" leaves the seed
inventory unchanged. -/
theorem updateGear_spec_witness :
    updateGear itemFresh [itemGrigri, itemReactor] = [itemGrigri, itemReactor] :=
  (updateGear_spec itemFresh [itemGrigri, itemReactor]).2.1 (by decide)

/-- Claim C9 counterexample: with an inventory already holding id "1",
`addGear` of a second item with id "1" followed by `removeGear "1"` empties
the store instead of restoring the prior single-element content: the filter
deletes the pre-existing entry with the same id as well. -/
theorem add_remove_not_roundtrip :
    removeGear dupGrigri.id (addGear dupGrigri [itemGrigri]) = [] ∧
    ([] : List GearItem) ≠ [itemGrigri] :=
  ⟨rfl, by decide⟩

/-- Claim C9 (amended): for every inventory and every item whose id does
not already occur in the inventory (which fresh UUID generation ensures),
`addGear` followed by `removeGear` of that same id returns the inventory to
its prior content and order. -/
theorem add_remove_roundtrip (item : GearItem) (inventory : List GearItem)
    (h : item.id ∉ inventory.map GearItem.id) :
    removeGear item.id (addGear item inventory) = inventory := by
  unfold addGear removeGear
  rw [List.filter_cons_of_neg (by simp)]
  apply List.filter_eq_self.mpr
  intro a ha
  simp only [decide_eq_true_eq]
  intro heq
  exact h (heq ▸ List.mem_map_of_mem GearItem.id ha)

/-- Witness for C9: adding the fresh item and removing its id restores the
seed inventory. -/
theorem add_remove_roundtrip_witness :
    removeGear itemFresh.id (addGear itemFresh [itemGrigri, itemReactor]) =
      [itemGrigri, itemReactor] :=
  add_remove_roundtrip itemFresh [itemGrigri, itemReactor] (by decide)

/-- Claim C10: the three per-item Enrichment Client calls never reject —
each is a total function of its attempt outcome, and on a failed attempt
`checkGearSafety` resolves with the unknown-status RecallResult with empty
sources, `getInspectionDetails` with expiry currentYear + 5 and one generic
inspection task, and `analyzeGearCondition` with score 50 labelled
"Needs check"; consequently `enrichOne` fed three resolved results always
takes the merge branch, never the catch branch. -/
theorem clients_never_reject (e : Unit) (now : String) (currentYear : Nat)
    (taskIdBase : String) :
    checkGearSafety (Except.error e) now =
      { status := RecallStatus.unknown,
        summary := "Could not verify safety status due to network error.",
        hazardReason := "Unknown", hazardType := HazardType.noHazard,
        affectedRegion := "Unknown",
        actionRequired := ["Check manufacturer website manually"],
        sources := [], lastChecked := now } ∧
    getInspectionDetails (Except.error e) currentYear taskIdBase =
      { expiryYear := currentYear + 5,
        inspectionTasks := [{ id := "1", task := "Visually inspect for damage", isCompleted := false }],
        weakPoints := ["Check general condition"] } ∧
    analyzeGearCondition (Except.error e) = { score := 50, label := "Needs check" } ∧
    (∀ item r insp cond,
      enrichOne item (Except.ok r) (Except.ok insp) (Except.ok cond) =
        mergeEnrichment item r insp cond) :=
  ⟨rfl, rfl, rfl, fun _ _ _ _ => rfl⟩

/-- Claim C5: membership in `highDangerItems` is exactly the union of the
status criterion (recalled or warning) and the condition criterion (score
defined and strictly below 50) — either alone suffices. -/
theorem highDangerItems_mem (inventory : List GearItem) (item : GearItem) :
    item ∈ highDangerItems inventory ↔
      item ∈ inventory ∧
        (item.status = RecallStatus.recalled ∨ item.status = RecallStatus.warning ∨
          ∃ s, item.conditionScore = some s ∧ s < 50) := by
  simp only [highDangerItems, List.mem_filter, isHighDanger, Bool.or_eq_true,
    decide_eq_true_eq]
  cases hcs : item.conditionScore with
  | none => simp [hcs]
  | some s => simp [hcs, or_assoc]

/-- Witness for C5: the claim's two boundary examples — status safe with
score 40 qualifies via the condition criterion alone, and status recalled
with score 90 qualifies via the status criterion alone. -/
theorem highDangerItems_mem_witness :
    itemSafe40 ∈ highDangerItems [itemSafe40, itemRecalled90] ∧
    itemRecalled90 ∈ highDangerItems [itemSafe40, itemRecalled90] :=
  ⟨(highDangerItems_mem [itemSafe40, itemRecalled90] itemSafe40).mpr
      ⟨by decide, Or.inr (Or.inr ⟨40, rfl, by decide⟩)⟩,
    (highDangerItems_mem [itemSafe40, itemRecalled90] itemRecalled90).mpr
      ⟨by decide, Or.inl rfl⟩⟩

/-- Claim C6 counterexample: an item whose expiryYear is the defined value
0 satisfies the claim's expiry criterion (defined and ≤ the current year
2026), yet the Sidebar filter's JavaScript truthiness test
`item.expiryYear && ...` treats 0 as absent, so the item is not in
`reminders`. -/
theorem reminders_year_zero_counterexample :
    (∃ y, itemYearZero.expiryYear = some y ∧ y ≤ 2026) ∧
    itemYearZero.conditionScore = none ∧
    itemYearZero ∉ reminders [itemYearZero] 2026 :=
  ⟨⟨0, rfl, by decide⟩, rfl, by decide⟩

/-- Claim C6 (amended): `reminders` contains exactly the items where the
expiry year is defined, nonzero (JavaScript truthiness) and ≤ the current
year, OR the condition score is defined and strictly below 60 — so a score
of exactly 60 does not qualify via the score criterion, whose threshold 60
is distinct from highDangerItems' 50. -/
theorem reminders_mem (inventory : List GearItem) (currentYear : Nat) (item : GearItem) :
    item ∈ reminders inventory currentYear ↔
      item ∈ inventory ∧
        ((∃ y, item.expiryYear = some y ∧ y ≠ 0 ∧ y ≤ currentYear) ∨
          ∃ s, item.conditionScore = some s ∧ s < 60) := by
  simp only [reminders, List.mem_filter, isReminder, Bool.or_eq_true, Bool.and_eq_true,
    decide_eq_true_eq]
  cases hy : item.expiryYear with
  | none => cases hs : item.conditionScore <;> simp [hy, hs]
  | some y => cases hs : item.conditionScore <;> simp [hy, hs]

/-- Witness for C6: an expired (2020 ≤ 2026) item whose condition score is
exactly 60 is a reminder via the expiry criterion. -/
theorem reminders_mem_witness :
    itemExpired60 ∈ reminders [itemExpired60] 2026 :=
  (reminders_mem [itemExpired60] 2026 itemExpired60).mpr
    ⟨by decide, Or.inl ⟨2020, rfl, by decide, by decide⟩⟩

/-- The enrichment spread never touches the id field. -/
theorem enrichOne_id (item : GearItem) (a : Except Unit RecallResult)
    (b : Except Unit InspectionDetails) (c : Except Unit ConditionResult) :
    (enrichOne item a b c).id = item.id := by
  cases a <;> cases b <;> cases c <;> rfl

/-- Bundle form of `enrichOne_id`. -/
theorem enrichOneWith_id (item : GearItem) (o : EnrichOutcome) :
    (enrichOneWith item o).id = item.id :=
  enrichOne_id item o.1 o.2.1 o.2.2

/-- `find?` returns the distinguished element when it is the only member
satisfying the predicate. -/
theorem findFirst_of_unique {α : Type} {p : α → Bool} {l : List α} {x : α}
    (hx : x ∈ l) (hpx : p x = true) (huniq : ∀ y ∈ l, p y = true → y = x) :
    l.find? p = some x := by
  induction l with
  | nil => cases hx
  | cons a t ih =>
    by_cases hpa : p a = true
    · rw [List.find?_cons_of_pos t hpa, huniq a (List.mem_cons_self a t) hpa]
    · rw [List.find?_cons_of_neg t (by simpa using hpa)]
      apply ih
      · rcases List.mem_cons.mp hx with h | h
        · exact absurd (h ▸ hpx) hpa
        · exact h
      · exact fun y hy hpy => huniq y (List.mem_cons_of_mem a hy) hpy

/-- Claim C3: on an inventory with pairwise-distinct ids (the store's
documented key invariant), `enrichAll` equals the pointwise map that
enriches exactly the items whose prior status is "unknown" and passes every
other item through unchanged; consequently, any position holding an item
whose prior status is not "unknown" holds the identical item after the bulk
merge. -/
theorem enrichAll_frame (inventory : List GearItem) (oracle : GearItem → EnrichOutcome)
    (hNodup : (inventory.map GearItem.id).Nodup) :
    enrichAll inventory oracle =
      inventory.map (fun item =>
        if item.status = RecallStatus.unknown then enrichOneWith item (oracle item)
        else item) ∧
    ∀ (i : Nat) (item : GearItem), inventory[i]? = some item →
      item.status ≠ RecallStatus.unknown →
      (enrichAll inventory oracle)[i]? = some item := by
  have hinj : ∀ a ∈ inventory, ∀ b ∈ inventory, a.id = b.id → a = b := by
    intro a ha b hb hab
    exact List.inj_on_of_nodup_map hNodup ha hb hab
  have hmain : enrichAll inventory oracle =
      inventory.map (fun item =>
        if item.status = RecallStatus.unknown then enrichOneWith item (oracle item)
        else item) := by
    simp only [enrichAll]
    apply List.map_congr_left
    intro item hmem
    by_cases hst : item.status = RecallStatus.unknown
    · have hfind :
          ((inventory.filter fun it => decide (it.status = RecallStatus.unknown)).map
              fun it => enrichOneWith it (oracle it)).find?
              (fun u => decide (u.id = item.id)) =
            some (enrichOneWith item (oracle item)) := by
        apply findFirst_of_unique
        · exact List.mem_map_of_mem _ (List.mem_filter.mpr ⟨hmem, by simp [hst]⟩)
        · simp [enrichOneWith_id]
        · intro y hy hpy
          obtain ⟨i0, hi0, rfl⟩ := List.mem_map.mp hy
          have hi0inv : i0 ∈ inventory := (List.mem_filter.mp hi0).1
          have hid : i0.id = item.id := by
            have hpy' := of_decide_eq_true hpy
            rwa [enrichOneWith_id] at hpy'
          rw [hinj i0 hi0inv item hmem hid]
      rw [hfind, if_pos hst]
    · have hfind :
          ((inventory.filter fun it => decide (it.status = RecallStatus.unknown)).map
              fun it => enrichOneWith it (oracle it)).find?
              (fun u => decide (u.id = item.id)) = none := by
        rw [List.find?_eq_none]
        intro u hu hp
        obtain ⟨i0, hi0, rfl⟩ := List.mem_map.mp hu
        obtain ⟨hi0inv, hi0st⟩ := List.mem_filter.mp hi0
        have hid : i0.id = item.id := by
          have hp' := of_decide_eq_true hp
          rwa [enrichOneWith_id] at hp'
        have heq : i0 = item := hinj i0 hi0inv item hmem hid
        exact hst (heq ▸ of_decide_eq_true hi0st)
      rw [hfind, if_neg hst]
  refine ⟨hmain, ?_⟩
  intro i item hget hstat
  rw [hmain, List.getElem?_map, hget]
  simp [hstat]

/-- Witness for C3: on the two-item inventory holding the unknown-status
Grigri and the safe-status Reactor, with every sub-call rejecting, the bulk
merge leaves both items unchanged (the safe item because it was never
selected, the unknown item because its enrichment failed). -/
theorem enrichAll_frame_witness :
    enrichAll [itemGrigri, itemSafeReactor] oracleFailAll =
      [itemGrigri, itemSafeReactor] := by
  have h := (enrichAll_frame [itemGrigri, itemSafeReactor] oracleFailAll (by decide)).1
  rw [h]
  decide

end TrailSafe
